import Mathlib

/-!
Shallow embedding of `src/VST3Loader/main.cpp` from pebble8888/vsthostsample.

The file under verification is a tiny shim:

  void* moduleHandle = nullptr;
  extern bool InitModule ();
  extern bool DeinitModule ();

  int run(int argc, char* argv[])
  {
      InitModule ();
      auto result = Steinberg::Vst::Validator (argc, argv).run ();
      DeinitModule ();
      return result;
  }

  int testVST3(void)
  {
      char* argv0 = (char *)"";
      char* argv1 = (char *)"/Users/pebble8888/Library/Audio/Plug-Ins/VST3/again.vst3";
      char* argv[2] = {argv0, argv1};
      return run(2, argv);
  }

`InitModule`, `DeinitModule` and `Steinberg::Vst::Validator` are external
collaborators (declared `extern` / included from the VST SDK, not part of this
repository's sources).  We model them by an environment `ValidatorEnv` that
fixes the boolean results of the two module entry points and the behaviour of
`Validator(argc, argv).run()`.  Since `Validator::run` is external C++ code it
may either return an `int` or terminate exceptionally; this is modelled with
`Except Unit Int` (`Except.error` = an exception propagates).  The shim itself
contains no try/catch, so in the embedding an exceptional result of the
validator call propagates out of `run` and the statements after the call are
not executed.

`run` is embedded as a function producing the ordered trace of external calls
it performs together with its outcome, so that ordering, counting and
propagation claims can be stated about it.
-/

/-- Decidable equality on validator outcomes (`Except Unit Int`). -/
instance exceptUnitIntDecEq : DecidableEq (Except Unit Int)
  | Except.ok x, Except.ok y => decidable_of_iff (x = y) (by simp)
  | Except.ok _, Except.error _ => isFalse (fun h => Except.noConfusion h)
  | Except.error _, Except.ok _ => isFalse (fun h => Except.noConfusion h)
  | Except.error a, Except.error b => isTrue (by cases a; cases b; rfl)

/-- Observable events of the shim: each external call it performs, in order,
with the value produced by that call. -/
inductive Event where
  | callInitModule : Bool → Event
  | ctorValidator : Nat → List String → Event
  | callValidatorRun : Except Unit Int → Event
  | callDeinitModule : Bool → Event
deriving DecidableEq, Repr

/-- Behaviour of the external collaborators of the shim: the boolean results of
the module entry points `InitModule` and `DeinitModule`, and the behaviour of
`Steinberg::Vst::Validator(argc, argv).run()` as a function of the argument
vector (`Except.ok r` = returns the int `r`; `Except.error ()` = terminates
exceptionally). -/
structure ValidatorEnv where
  initRet : Bool
  deinitRet : Bool
  vrun : Nat → List String → Except Unit Int

/-- Embedding of `int run(int argc, char* argv[])` from main.cpp, as a
trace-producing function.  Faithful to the source: it calls `InitModule`
(result discarded), constructs `Validator(argc, argv)` and calls its `run`
method; if that call returns normally it calls `DeinitModule` (result
discarded) and returns the validator's integer; there is no try/catch, so if
the validator call terminates exceptionally the exception propagates and
`DeinitModule` is not reached. -/
def runShim (env : ValidatorEnv) (argc : Nat) (argv : List String) :
    List Event × Except Unit Int :=
  match env.vrun argc argv with
  | Except.ok result =>
      ([Event.callInitModule env.initRet,
        Event.ctorValidator argc argv,
        Event.callValidatorRun (Except.ok result),
        Event.callDeinitModule env.deinitRet],
       Except.ok result)
  | Except.error u =>
      ([Event.callInitModule env.initRet,
        Event.ctorValidator argc argv,
        Event.callValidatorRun (Except.error u)],
       Except.error u)

/-- The hardcoded plug-in path appearing in `testVST3` in main.cpp. -/
def vst3TestPath : String :=
  "/Users/pebble8888/Library/Audio/Plug-Ins/VST3/again.vst3"

/-- Embedding of `int testVST3(void)` from main.cpp: it builds the two-entry
argument vector `{"", vst3TestPath}` and returns `run(2, argv)`. -/
def testVST3 (env : ValidatorEnv) : List Event × Except Unit Int :=
  runShim env 2 ["", vst3TestPath]

/-- Recognizer for `InitModule` call events. -/
def isInitModuleEvent : Event → Bool
  | Event.callInitModule _ => true
  | _ => false

/-- Recognizer for `DeinitModule` call events. -/
def isDeinitModuleEvent : Event → Bool
  | Event.callDeinitModule _ => true
  | _ => false

/-- Recognizer for Validator-construction events. -/
def isCtorEvent : Event → Bool
  | Event.ctorValidator _ _ => true
  | _ => false

/-- Number of `InitModule` invocations in a trace. -/
def countInitModule (tr : List Event) : Nat :=
  tr.countP isInitModuleEvent

/-- Number of `DeinitModule` invocations in a trace. -/
def countDeinitModule (tr : List Event) : Nat :=
  tr.countP isDeinitModuleEvent

/-- The global `void* moduleHandle = nullptr;` of main.cpp, modelled as an
optional handle; `none` is the null pointer it is initialized to. -/
def moduleHandleInit : Option Nat := none

/-- The shim's global mutable state: just the `moduleHandle` pointer. -/
structure ShimState where
  moduleHandle : Option Nat
deriving DecidableEq, Repr

/-- The initial global state of the shim: `moduleHandle` is `nullptr`. -/
def initialShimState : ShimState :=
  { moduleHandle := moduleHandleInit }

/-- A call into the shim's public surface: either `run` (with an environment
for the externals and an argument vector) or `testVST3`. -/
inductive ShimCall where
  | callRun : ValidatorEnv → Nat → List String → ShimCall
  | callTestVST3 : ValidatorEnv → ShimCall

/-- State-passing form of `run`: the body of `run` in main.cpp contains no
assignment to (nor read of) `moduleHandle`, so the global state is returned
unchanged next to the trace and result. -/
def runShimSt (st : ShimState) (env : ValidatorEnv) (argc : Nat)
    (argv : List String) : ShimState × List Event × Except Unit Int :=
  (st, runShim env argc argv)

/-- State-passing form of `testVST3`: its body contains no assignment to
`moduleHandle` either; it only delegates to `run`. -/
def testVST3St (st : ShimState) (env : ValidatorEnv) :
    ShimState × List Event × Except Unit Int :=
  (st, testVST3 env)

/-- Execute a sequence of calls to `run` / `testVST3` from a given global
state, threading the state through. -/
def execCalls : ShimState → List ShimCall → ShimState
  | st, [] => st
  | st, ShimCall.callRun env argc argv :: cs =>
      execCalls (runShimSt st env argc argv).1 cs
  | st, ShimCall.callTestVST3 env :: cs =>
      execCalls (testVST3St st env).1 cs

/-- An environment whose validator run terminates exceptionally (a test case
aborts and the exception escapes `Validator::run`). -/
def envThrow : ValidatorEnv :=
  { initRet := true, deinitRet := true, vrun := fun _ _ => Except.error () }

/-- An environment whose validator run returns normally with result 0. -/
def envOk : ValidatorEnv :=
  { initRet := true, deinitRet := true, vrun := fun _ _ => Except.ok 0 }

/-- An environment returning `argc` as the validator result. -/
def envA : ValidatorEnv :=
  { initRet := true, deinitRet := false,
    vrun := fun argc _ => Except.ok (Int.ofNat argc) }

/-- An environment that behaves like `envA` except at `argc = 3`, where it
throws. -/
def envB : ValidatorEnv :=
  { initRet := true, deinitRet := false,
    vrun := fun argc _ =>
      if argc = 3 then Except.error () else Except.ok (Int.ofNat argc) }

/-! ## Shared helper lemmas -/

/-- In every execution of `run`, the trace contains exactly one
Validator-construction event, carrying the received `argc` and `argv`. -/
theorem ctorFilter_runShim (env : ValidatorEnv) (argc : Nat)
    (argv : List String) :
    (runShim env argc argv).1.filter isCtorEvent =
      [Event.ctorValidator argc argv] := by
  cases h : env.vrun argc argv <;>
    simp [runShim, h, isCtorEvent, List.filter]

/-! ## Theorems for the claims -/

/-- C1 counterexample: in the execution of `run` where the validator's run
terminates exceptionally, the count of `InitModule` invocations (one) does not
equal the count of `DeinitModule` invocations (zero), refuting the claim that
they are equal in every execution. -/
theorem C1_counterexample :
    ¬ (countInitModule (runShim envThrow 1 ["p1"]).1 =
       countDeinitModule (runShim envThrow 1 ["p1"]).1) := by
  decide

/-- C1 (amended): in every execution of `run` in which the validator's run
method returns normally, `InitModule` and `DeinitModule` are each invoked
exactly once, so their invocation counts are equal at exit of `run`. -/
theorem C1_run_counts_on_normal_return (env : ValidatorEnv) (argc : Nat)
    (argv : List String) (r : Int) (h : env.vrun argc argv = Except.ok r) :
    countInitModule (runShim env argc argv).1 =
      countDeinitModule (runShim env argc argv).1 ∧
    countInitModule (runShim env argc argv).1 = 1 := by
  simp [runShim, h, countInitModule, countDeinitModule, List.countP,
    List.countP.go, isInitModuleEvent, isDeinitModuleEvent]

/-- C1 witness: the amended theorem applied at a concrete normally-returning
environment and argument vector. -/
theorem C1_witness :
    envOk.vrun 2 ["", "x"] = Except.ok 0 ∧
    (countInitModule (runShim envOk 2 ["", "x"]).1 =
       countDeinitModule (runShim envOk 2 ["", "x"]).1 ∧
     countInitModule (runShim envOk 2 ["", "x"]).1 = 1) :=
  ⟨rfl, C1_run_counts_on_normal_return envOk 2 ["", "x"] 0 rfl⟩

/-- C2: `run` returns exactly the outcome of `Validator(argc, argv).run()` for
every environment and every argument vector — the integer result is propagated
unchanged (and an exception propagates unchanged too). -/
theorem C2_run_propagates_result (env : ValidatorEnv) (argc : Nat)
    (argv : List String) :
    (runShim env argc argv).2 = env.vrun argc argv := by
  cases h : env.vrun argc argv <;> simp [runShim, h]

/-- C3 counterexample: an execution of `run` in which `InitModule` was called
but `DeinitModule` was not — the validator's run terminates exceptionally and,
the shim having no try/catch, `DeinitModule` is skipped. This refutes the
claim that `DeinitModule` is invoked on every path out of `run`. -/
theorem C3_counterexample :
    countInitModule (runShim envThrow 2 ["", "q"]).1 = 1 ∧
    countDeinitModule (runShim envThrow 2 ["", "q"]).1 = 0 := by
  decide

/-- C3 (amended): `DeinitModule` is invoked exactly once on every execution of
`run` in which the validator's run method returns normally, and is not invoked
at all when the validator's run terminates exceptionally (while `InitModule`
is invoked once in every execution). -/
theorem C3_deinit_only_on_normal_return (env : ValidatorEnv) (argc : Nat)
    (argv : List String) :
    countInitModule (runShim env argc argv).1 = 1 ∧
    countDeinitModule (runShim env argc argv).1 =
      (match env.vrun argc argv with
       | Except.ok _ => 1
       | Except.error _ => 0) := by
  cases h : env.vrun argc argv <;>
    simp [runShim, h, countInitModule, countDeinitModule, List.countP,
      List.countP.go, isInitModuleEvent, isDeinitModuleEvent]

/-- C4 counterexample: in the execution of `run` where the validator's run
terminates exceptionally, the `DeinitModule` step is skipped (no
`DeinitModule` event occurs in the trace), refuting the claim that in every
execution no step is skipped. -/
theorem C4_counterexample :
    Event.callDeinitModule true ∉ (runShim envThrow 3 ["a", "b", "c"]).1 ∧
    Event.callDeinitModule false ∉ (runShim envThrow 3 ["a", "b", "c"]).1 := by
  decide

/-- C4 (amended): in every execution of `run` in which the validator's run
method returns normally, the events occur in exactly this order with no step
reordered, repeated, or skipped: the `InitModule` call, the construction of
the Validator from the argument vector, the invocation of its run method, the
`DeinitModule` call; and the validator's integer is the returned result. -/
theorem C4_run_event_order_on_normal_return (env : ValidatorEnv) (argc : Nat)
    (argv : List String) (r : Int) (h : env.vrun argc argv = Except.ok r) :
    runShim env argc argv =
      ([Event.callInitModule env.initRet,
        Event.ctorValidator argc argv,
        Event.callValidatorRun (Except.ok r),
        Event.callDeinitModule env.deinitRet],
       Except.ok r) := by
  simp [runShim, h]

/-- C4 witness: the amended ordering theorem applied at a concrete
normally-returning environment and argument vector. -/
theorem C4_witness :
    envOk.vrun 1 ["v"] = Except.ok 0 ∧
    runShim envOk 1 ["v"] =
      ([Event.callInitModule true,
        Event.ctorValidator 1 ["v"],
        Event.callValidatorRun (Except.ok 0),
        Event.callDeinitModule true],
       Except.ok 0) :=
  ⟨rfl, C4_run_event_order_on_normal_return envOk 1 ["v"] 0 rfl⟩

/-- C5: `run` constructs the Validator with exactly the argument vector it
received: in every execution the trace contains exactly one
Validator-construction event, and it carries the same `argc` and the same
`argv` entries that `run` received, unmodified. -/
theorem C5_ctor_receives_exact_args (env : ValidatorEnv) (argc : Nat)
    (argv : List String) :
    (runShim env argc argv).1.filter isCtorEvent =
      [Event.ctorValidator argc argv] :=
  ctorFilter_runShim env argc argv

/-- C6: `run` is deterministic and consults no input source other than its
argument vector and the external entry points — two executions under
environments that agree on the `InitModule` and `DeinitModule` results and on
the validator's behaviour at the given argument vector produce identical
traces and identical results, even if the environments differ elsewhere. -/
theorem C6_run_deterministic (e1 e2 : ValidatorEnv) (argc : Nat)
    (argv : List String) (h1 : e1.initRet = e2.initRet)
    (h2 : e1.deinitRet = e2.deinitRet)
    (h3 : e1.vrun argc argv = e2.vrun argc argv) :
    runShim e1 argc argv = runShim e2 argc argv := by
  simp only [runShim, h1, h2, h3]

/-- C6 witness: two environments that differ at `argc = 3` but agree at the
concrete input `(2, ["", "p"])` give identical executions there. -/
theorem C6_witness :
    envA.initRet = envB.initRet ∧ envA.deinitRet = envB.deinitRet ∧
    envA.vrun 2 ["", "p"] = envB.vrun 2 ["", "p"] ∧
    runShim envA 2 ["", "p"] = runShim envB 2 ["", "p"] :=
  ⟨rfl, rfl, rfl, C6_run_deterministic envA envB 2 ["", "p"] rfl rfl rfl⟩

/-- C7: every call of `testVST3` invokes `run` with argc 2 and the argument
vector whose first entry is the empty string and whose second entry is the
hardcoded path, and returns exactly what that `run` call returns: its result
is the result of that `run` call and its trace records exactly one
Validator construction, from argc 2 and that hardcoded vector. -/
theorem C7_testVST3_hardcoded (env : ValidatorEnv) :
    (testVST3 env).2 = (runShim env 2 ["", vst3TestPath]).2 ∧
    (testVST3 env).1.filter isCtorEvent =
      [Event.ctorValidator 2 ["", vst3TestPath]] :=
  ⟨rfl, ctorFilter_runShim env 2 ["", vst3TestPath]⟩

/-- C8: the global `moduleHandle` is initialized to `nullptr` and is never
written by `run` or `testVST3`: after any sequence of calls to the two
functions, starting from the initial state, `moduleHandle` is still the null
pointer. -/
theorem C8_moduleHandle_never_written :
    initialShimState.moduleHandle = none ∧
    ∀ calls : List ShimCall,
      (execCalls initialShimState calls).moduleHandle = none := by
  refine ⟨rfl, ?_⟩
  intro calls
  induction calls with
  | nil => rfl
  | cons c cs ih => cases c <;> simpa [execCalls, runShimSt, testVST3St] using ih

/-- C9: `run` ignores the boolean results of `InitModule` and `DeinitModule`:
the returned value is the same for all combinations of those booleans, and
even when `InitModule` reports failure (`false`) the Validator is still
constructed from the argument vector and its run method still invoked. -/
theorem C9_run_ignores_module_booleans (b1 c1 b2 c2 : Bool)
    (v : Nat → List String → Except Unit Int) (argc : Nat)
    (argv : List String) :
    (runShim ⟨b1, c1, v⟩ argc argv).2 = (runShim ⟨b2, c2, v⟩ argc argv).2 ∧
    Event.ctorValidator argc argv ∈ (runShim ⟨false, c1, v⟩ argc argv).1 ∧
    Event.callValidatorRun (v argc argv) ∈
      (runShim ⟨false, c1, v⟩ argc argv).1 := by
  cases h : v argc argv <;> simp [runShim, h]

/-- C10: `run` and `testVST3` perform a fixed finite sequence of external
calls — the trace of `run` has exactly four events when the validator's run
returns normally and exactly three when it terminates exceptionally, and the
trace of `testVST3` is likewise bounded by four events; both embeddings are
total functions, so the shim terminates whenever the external calls do. -/
theorem C10_run_finite_call_sequence (env : ValidatorEnv) (argc : Nat)
    (argv : List String) :
    (runShim env argc argv).1.length =
      (match env.vrun argc argv with
       | Except.ok _ => 4
       | Except.error _ => 3) ∧
    (testVST3 env).1.length ≤ 4 := by
  refine ⟨?_, ?_⟩
  · cases h : env.vrun argc argv <;> simp [runShim, h]
  · cases h : env.vrun 2 ["", vst3TestPath] <;>
      simp [testVST3, runShim, h]
